import Mathlib

/-!
Verification of the jetporch execution-and-reporting core: the task-handle
request/response protocol (src/tasks/handle.rs) and the playbook visitor
reporting pipeline (src/playbooks/visitor.rs), shallowly embedded in Lean.

Modelling conventions:
* Rust `assert!` (a fatal abort on a broken internal contract) is modelled by
  returning `none` from an `Option`-valued function; functions with no assert
  return plain values.
* The visitor's `panic!` fallback arms are likewise modelled as `none`.
* `println!` output is modelled as a list of strings (color escape codes
  elided, content otherwise as formatted by the source).
* `Arc`, `RwLock` and `Mutex` wrappers are elided: the embedding passes state
  explicitly, so locking disappears and callers thread the context by hand.
* `PlaybookContext` (its counter store and increment/getter operations) is not
  part of the two source files — only its callers are — so it is modelled from
  the spec, see the doc comments below.
-/

/-- The phase of a task's lifecycle against one host
(`TaskRequestType` in src/tasks/request.rs, as used by the two source files). -/
inductive TaskRequestType where
  | Validate
  | Query
  | Create
  | Modify
  | Remove
deriving DecidableEq, Repr

/-- The closed set of response statuses (`TaskStatus` in src/tasks/response.rs,
as used by the two source files). -/
inductive TaskStatus where
  | IsValidated
  | IsCreated
  | IsRemoved
  | IsModified
  | IsExecuted
  | IsPassive
  | IsMatched
  | IsSkipped
  | NeedsCreation
  | NeedsRemoval
  | NeedsModification
  | NeedsExecution
  | Failed
deriving DecidableEq, Repr

/-- `CommandResult { cmd, out, rc }` from src/connection/command.rs as consumed
by the two source files. -/
structure CommandResult where
  cmd : String
  out : String
  rc : Int
deriving DecidableEq, Repr

/-- The slice of `TaskRequest` the two source files consult: its kind. -/
structure TaskRequest where
  request_type : TaskRequestType
deriving DecidableEq, Repr

/-- `TaskResponse` from src/tasks/response.rs as constructed in handle.rs and
consumed in visitor.rs.  `changes` models `Arc<Option<HashMap<String,String>>>`
as an optional association list. -/
structure TaskResponse where
  status : TaskStatus
  changes : Option (List (String × String))
  msg : Option String
  command_result : Option CommandResult
deriving DecidableEq, Repr

/-- Spec-side definition, for comparison with the code: the per-request-kind
whitelist of legal response statuses, transcribed from the spec's table
(section 3): Validate ↦ IsValidated; Query ↦ IsMatched, NeedsCreation,
NeedsModification, NeedsRemoval; Create ↦ IsCreated; Modify ↦ IsModified;
Remove ↦ IsRemoved; and IsExecuted, IsPassive, IsSkipped, Failed legal for
any kind. -/
def legalStatus : TaskRequestType → TaskStatus → Bool
  | _, TaskStatus.IsExecuted => true
  | _, TaskStatus.IsPassive => true
  | _, TaskStatus.IsSkipped => true
  | _, TaskStatus.Failed => true
  | TaskRequestType.Validate, TaskStatus.IsValidated => true
  | TaskRequestType.Query, TaskStatus.IsMatched => true
  | TaskRequestType.Query, TaskStatus.NeedsCreation => true
  | TaskRequestType.Query, TaskStatus.NeedsModification => true
  | TaskRequestType.Query, TaskStatus.NeedsRemoval => true
  | TaskRequestType.Create, TaskStatus.IsCreated => true
  | TaskRequestType.Modify, TaskStatus.IsModified => true
  | TaskRequestType.Remove, TaskStatus.IsRemoved => true
  | _, _ => false

/-- `TaskHandle::run` (handle.rs lines 52-55): asserts the request is not a
Validate request, then forwards the command to the connection.  The connection
(out of scope) is passed as a function; the assert is the `none` case. -/
def TaskHandle.run (conn : TaskRequest → String → Except TaskResponse TaskResponse)
    (request : TaskRequest) (cmd : String) : Option (Except TaskResponse TaskResponse) :=
  if request.request_type = TaskRequestType.Validate then none
  else some (conn request cmd)

/-- `TaskHandle::is_failed` (handle.rs lines 82-92): no precondition check;
builds a Failed response carrying the message and no command result.
(The synchronous recording into the host's counters is out of scope here:
`Host::record_task_response` is not part of the source files.) -/
def TaskHandle.is_failed (_request : TaskRequest) (msg : String) : TaskResponse :=
  { status := TaskStatus.Failed, changes := none, msg := some msg, command_result := none }

/-- `TaskHandle::command_failed` (handle.rs lines 94-103): no precondition
check; builds a Failed response carrying the command result and no message. -/
def TaskHandle.command_failed (_request : TaskRequest) (result : CommandResult) : TaskResponse :=
  { status := TaskStatus.Failed, changes := none, msg := none, command_result := some result }

/-- `TaskHandle::command_ok` (handle.rs lines 105-114): no precondition check;
builds a response with status `IsCreated` carrying the command result. -/
def TaskHandle.command_ok (_request : TaskRequest) (result : CommandResult) : TaskResponse :=
  { status := TaskStatus.IsCreated, changes := none, msg := none, command_result := some result }

/-- `TaskHandle::is_validated` (handle.rs lines 116-126): asserts the request
kind is Validate, then builds an IsValidated response. -/
def TaskHandle.is_validated (request : TaskRequest) : Option TaskResponse :=
  if request.request_type = TaskRequestType.Validate then
    some { status := TaskStatus.IsValidated, changes := none, msg := none, command_result := none }
  else none

/-- `TaskHandle::is_created` (handle.rs lines 128-138): asserts the request
kind is Create, then builds an IsCreated response. -/
def TaskHandle.is_created (request : TaskRequest) : Option TaskResponse :=
  if request.request_type = TaskRequestType.Create then
    some { status := TaskStatus.IsCreated, changes := none, msg := none, command_result := none }
  else none

/-- `TaskHandle::is_removed` (handle.rs lines 140-150): asserts the request
kind is Remove, then builds an IsRemoved response. -/
def TaskHandle.is_removed (request : TaskRequest) : Option TaskResponse :=
  if request.request_type = TaskRequestType.Remove then
    some { status := TaskStatus.IsRemoved, changes := none, msg := none, command_result := none }
  else none

/-- `TaskHandle::is_modified` (handle.rs lines 152-162): asserts the request
kind is Modify, then builds an IsModified response carrying the changes. -/
def TaskHandle.is_modified (request : TaskRequest)
    (changes : Option (List (String × String))) : Option TaskResponse :=
  if request.request_type = TaskRequestType.Modify then
    some { status := TaskStatus.IsModified, changes := changes, msg := none, command_result := none }
  else none

/-- `TaskHandle::needs_creation` (handle.rs lines 164-175): asserts the request
kind is Query, then builds a NeedsCreation response. -/
def TaskHandle.needs_creation (request : TaskRequest) : Option TaskResponse :=
  if request.request_type = TaskRequestType.Query then
    some { status := TaskStatus.NeedsCreation, changes := none, msg := none, command_result := none }
  else none

/-- `TaskHandle::needs_modification` (handle.rs lines 177-187): asserts the
request kind is Query, then builds a NeedsModification response carrying the
changes. -/
def TaskHandle.needs_modification (request : TaskRequest)
    (changes : Option (List (String × String))) : Option TaskResponse :=
  if request.request_type = TaskRequestType.Query then
    some { status := TaskStatus.NeedsModification, changes := changes, msg := none,
           command_result := none }
  else none

/-- `TaskHandle::needs_removal` (handle.rs lines 189-199): asserts the request
kind is Query, then builds a NeedsRemoval response. -/
def TaskHandle.needs_removal (request : TaskRequest) : Option TaskResponse :=
  if request.request_type = TaskRequestType.Query then
    some { status := TaskStatus.NeedsRemoval, changes := none, msg := none, command_result := none }
  else none

/-- Helper: a constructed response (when construction did not abort) has a
status legal for the request's kind. -/
def constructedLegal (request : TaskRequest) (o : Option TaskResponse) : Bool :=
  match o with
  | none => true
  | some r => legalStatus request.request_type r.status

/-- Modelled from the spec: one aggregator category of `PlaybookContext`
(src/playbooks/context.rs, not under src/).  Per spec section 4.3, each
category keeps a run-wide sum and a distinct-hosts-affected set ("a host
counts once toward hosts affected regardless of how many tasks touched it
that way"). -/
structure Bucket where
  total : Nat
  hosts : Finset String
deriving DecidableEq

/-- Modelled from the spec: a category increment bumps the run-wide sum and
marks the host as affected (first time only, via set insertion). -/
def Bucket.incr (b : Bucket) (host : String) : Bucket :=
  { total := b.total + 1, hosts := insert host b.hosts }

/-- Modelled from the spec: the shared run-wide aggregator `PlaybookContext`
(src/playbooks/context.rs, not under src/): one bucket per outcome category
plus the hosts-seen set, the role count and the task count.  Identity fields
(playbook path, play, role, task, verbosity) play no part in the claims and
are elided. -/
structure PlaybookContext where
  seen_hosts : Finset String
  attempted : Bucket
  created : Bucket
  removed : Bucket
  modified : Bucket
  executed : Bucket
  passive : Bucket
  matched : Bucket
  skipped : Bucket
  failed : Bucket
  role_count : Nat
  task_count : Nat
deriving DecidableEq

/-- Modelled from the spec: the aggregator at playbook start, all counters
zero, no host seen. -/
def initialContext : PlaybookContext :=
  { seen_hosts := ∅
    attempted := ⟨0, ∅⟩, created := ⟨0, ∅⟩, removed := ⟨0, ∅⟩, modified := ⟨0, ∅⟩
    executed := ⟨0, ∅⟩, passive := ⟨0, ∅⟩, matched := ⟨0, ∅⟩, skipped := ⟨0, ∅⟩
    failed := ⟨0, ∅⟩, role_count := 0, task_count := 0 }

/-- Modelled from the spec: the traversal loop (out of scope, not under src/)
records every host it processes as seen before reporting any outcome for it. -/
def PlaybookContext.see_host (ctx : PlaybookContext) (host : String) : PlaybookContext :=
  { ctx with seen_hosts := insert host ctx.seen_hosts }

/-- Modelled from the spec: `increment_attempted_for_host`. -/
def PlaybookContext.increment_attempted_for_host (ctx : PlaybookContext) (host : String) :
    PlaybookContext :=
  { ctx with attempted := ctx.attempted.incr host }

/-- Modelled from the spec: `increment_created_for_host`. -/
def PlaybookContext.increment_created_for_host (ctx : PlaybookContext) (host : String) :
    PlaybookContext :=
  { ctx with created := ctx.created.incr host }

/-- Modelled from the spec: `increment_removed_for_host`. -/
def PlaybookContext.increment_removed_for_host (ctx : PlaybookContext) (host : String) :
    PlaybookContext :=
  { ctx with removed := ctx.removed.incr host }

/-- Modelled from the spec: `increment_modified_for_host`. -/
def PlaybookContext.increment_modified_for_host (ctx : PlaybookContext) (host : String) :
    PlaybookContext :=
  { ctx with modified := ctx.modified.incr host }

/-- Modelled from the spec: `increment_executed_for_host`. -/
def PlaybookContext.increment_executed_for_host (ctx : PlaybookContext) (host : String) :
    PlaybookContext :=
  { ctx with executed := ctx.executed.incr host }

/-- Modelled from the spec: `increment_passive_for_host`. -/
def PlaybookContext.increment_passive_for_host (ctx : PlaybookContext) (host : String) :
    PlaybookContext :=
  { ctx with passive := ctx.passive.incr host }

/-- Modelled from the spec: `increment_matched_for_host`. -/
def PlaybookContext.increment_matched_for_host (ctx : PlaybookContext) (host : String) :
    PlaybookContext :=
  { ctx with matched := ctx.matched.incr host }

/-- Modelled from the spec: `increment_skipped_for_host`. -/
def PlaybookContext.increment_skipped_for_host (ctx : PlaybookContext) (host : String) :
    PlaybookContext :=
  { ctx with skipped := ctx.skipped.incr host }

/-- Modelled from the spec: `increment_failed_for_host`. -/
def PlaybookContext.increment_failed_for_host (ctx : PlaybookContext) (host : String) :
    PlaybookContext :=
  { ctx with failed := ctx.failed.incr host }

/-- Modelled from the spec: total and distinct-host read accessors. -/
def PlaybookContext.get_hosts_seen_count (ctx : PlaybookContext) : Nat := ctx.seen_hosts.card

/-- Modelled from the spec: run-wide attempted total. -/
def PlaybookContext.get_total_attempted_count (ctx : PlaybookContext) : Nat := ctx.attempted.total

/-- Modelled from the spec: run-wide creation total. -/
def PlaybookContext.get_total_creation_count (ctx : PlaybookContext) : Nat := ctx.created.total

/-- Modelled from the spec: distinct hosts with a creation. -/
def PlaybookContext.get_hosts_creation_count (ctx : PlaybookContext) : Nat := ctx.created.hosts.card

/-- Modelled from the spec: run-wide modification total. -/
def PlaybookContext.get_total_modified_count (ctx : PlaybookContext) : Nat := ctx.modified.total

/-- Modelled from the spec: distinct hosts with a modification. -/
def PlaybookContext.get_hosts_modified_count (ctx : PlaybookContext) : Nat := ctx.modified.hosts.card

/-- Modelled from the spec: run-wide removal total. -/
def PlaybookContext.get_total_removal_count (ctx : PlaybookContext) : Nat := ctx.removed.total

/-- Modelled from the spec: distinct hosts with a removal. -/
def PlaybookContext.get_hosts_removal_count (ctx : PlaybookContext) : Nat := ctx.removed.hosts.card

/-- Modelled from the spec: run-wide execution total. -/
def PlaybookContext.get_total_executions_count (ctx : PlaybookContext) : Nat := ctx.executed.total

/-- Modelled from the spec: distinct hosts with an execution. -/
def PlaybookContext.get_hosts_executions_count (ctx : PlaybookContext) : Nat :=
  ctx.executed.hosts.card

/-- Modelled from the spec: run-wide passive total. -/
def PlaybookContext.get_total_passive_count (ctx : PlaybookContext) : Nat := ctx.passive.total

/-- Modelled from the spec: distinct hosts with a passive outcome. -/
def PlaybookContext.get_hosts_passive_count (ctx : PlaybookContext) : Nat := ctx.passive.hosts.card

/-- Modelled from the spec: run-wide matched total. -/
def PlaybookContext.get_total_matched_count (ctx : PlaybookContext) : Nat := ctx.matched.total

/-- Modelled from the spec: distinct hosts with a match. -/
def PlaybookContext.get_hosts_matched_count (ctx : PlaybookContext) : Nat := ctx.matched.hosts.card

/-- Modelled from the spec: run-wide skipped total. -/
def PlaybookContext.get_total_skipped_count (ctx : PlaybookContext) : Nat := ctx.skipped.total

/-- Modelled from the spec: distinct hosts with a skip. -/
def PlaybookContext.get_hosts_skipped_count (ctx : PlaybookContext) : Nat := ctx.skipped.hosts.card

/-- Modelled from the spec: run-wide failed total. -/
def PlaybookContext.get_total_failed_count (ctx : PlaybookContext) : Nat := ctx.failed.total

/-- Modelled from the spec: distinct hosts with a failure. -/
def PlaybookContext.get_hosts_failed_count (ctx : PlaybookContext) : Nat := ctx.failed.hosts.card

/-- Modelled from the spec: `total_adjusted_count` is the sum of
created + modified + removed + executed (spec section 4.3). -/
def PlaybookContext.get_total_adjusted_count (ctx : PlaybookContext) : Nat :=
  ctx.created.total + ctx.modified.total + ctx.removed.total + ctx.executed.total

/-- Modelled from the spec: `hosts_adjusted_count` counts the distinct hosts
that had any creation, modification, removal or execution. -/
def PlaybookContext.get_hosts_adjusted_count (ctx : PlaybookContext) : Nat :=
  (ctx.created.hosts ∪ ctx.modified.hosts ∪ ctx.removed.hosts ∪ ctx.executed.hosts).card

/-- Modelled from the spec: role count read accessor. -/
def PlaybookContext.get_role_count (ctx : PlaybookContext) : Nat := ctx.role_count

/-- Modelled from the spec: task count read accessor. -/
def PlaybookContext.get_task_count (ctx : PlaybookContext) : Nat := ctx.task_count

/-- The debug formatting of the optional changes map used by the modified
arms of the visitor (visitor.rs lines 155-156 and 203-204): iterate the
option, format each present value, join with commas. -/
def changeStr (changes : Option (List (String × String))) : String :=
  String.intercalate "," ((changes.toList).map (fun m => reprStr m))

/-- `CheckMode` (visitor.rs lines 31-35). -/
inductive CheckMode where
  | Yes
  | No
deriving DecidableEq, Repr

/-- `PlaybookVisitor` (visitor.rs lines 37-39). -/
structure PlaybookVisitor where
  check_mode : CheckMode
deriving DecidableEq, Repr

/-- `PlaybookVisitor::is_check_mode` (visitor.rs lines 50-52). -/
def PlaybookVisitor.is_check_mode (v : PlaybookVisitor) : Bool :=
  v.check_mode = CheckMode.Yes

/-- `PlaybookVisitor::on_host_task_ok` (visitor.rs lines 141-185): increments
attempted, then dispatches on the response status — the real-mode vocabulary.
Returns the updated aggregator and the printed lines; the `_ => panic!` arm is
`none`. -/
def on_host_task_ok (ctx : PlaybookContext) (task_response : TaskResponse) (host : String) :
    Option (PlaybookContext × List String) :=
  let ctx1 := ctx.increment_attempted_for_host host
  match task_response.status with
  | TaskStatus.IsCreated =>
      some (ctx1.increment_created_for_host host, ["✓ " ++ host ++ " => created"])
  | TaskStatus.IsRemoved =>
      some (ctx1.increment_removed_for_host host, ["✓ " ++ host ++ " => removed"])
  | TaskStatus.IsModified =>
      some (ctx1.increment_modified_for_host host,
        ["✓ " ++ host ++ " => modified (" ++ changeStr task_response.changes ++ ")"])
  | TaskStatus.IsExecuted =>
      some (ctx1.increment_executed_for_host host, ["✓ " ++ host ++ " => complete"])
  | TaskStatus.IsPassive =>
      some (ctx1.increment_passive_for_host host, [])
  | TaskStatus.IsMatched =>
      some (ctx1.increment_matched_for_host host, ["✓ " ++ host ++ " => matched "])
  | TaskStatus.IsSkipped =>
      some (ctx1.increment_skipped_for_host host, ["✓ " ++ host ++ " => skipped "])
  | TaskStatus.Failed =>
      some (ctx1, ["✓ " ++ host ++ " => failed (ignored)"])
  | _ => none

/-- `PlaybookVisitor::on_host_task_check_ok` (visitor.rs lines 189-230): the
check-mode vocabulary variant of `on_host_task_ok`. -/
def on_host_task_check_ok (ctx : PlaybookContext) (task_response : TaskResponse) (host : String) :
    Option (PlaybookContext × List String) :=
  let ctx1 := ctx.increment_attempted_for_host host
  match task_response.status with
  | TaskStatus.NeedsCreation =>
      some (ctx1.increment_created_for_host host, ["✓ " ++ host ++ " => would create"])
  | TaskStatus.NeedsRemoval =>
      some (ctx1.increment_removed_for_host host, ["✓ " ++ host ++ " => would remove"])
  | TaskStatus.NeedsModification =>
      some (ctx1.increment_modified_for_host host,
        ["✓ " ++ host ++ " => would modify (" ++ changeStr task_response.changes ++ ") "])
  | TaskStatus.NeedsExecution =>
      some (ctx1.increment_executed_for_host host, ["✓ " ++ host ++ " => would run"])
  | TaskStatus.IsPassive =>
      some (ctx1.increment_passive_for_host host, [])
  | TaskStatus.IsMatched =>
      some (ctx1.increment_matched_for_host host, ["✓ " ++ host ++ " => matched "])
  | TaskStatus.IsSkipped =>
      some (ctx1.increment_skipped_for_host host, ["✓ " ++ host ++ " => skipped "])
  | TaskStatus.Failed =>
      some (ctx1, ["✓ " ++ host ++ " => failed (ignored)"])
  | _ => none

/-- `PlaybookVisitor::on_host_task_failed` (visitor.rs lines 237-258): reports
the failure (the branch on `msg`, then on `command_result`, exactly as in the
source) and increments the failed counters.  Never aborts: total function. -/
def on_host_task_failed (ctx : PlaybookContext) (task_response : TaskResponse) (host : String) :
    PlaybookContext × List String :=
  let lines :=
    match task_response.msg with
    | some m =>
        match task_response.command_result with
        | some cmd_result =>
            ["! " ++ host ++ " => failed",
             "    cmd: " ++ cmd_result.cmd,
             "    out: " ++ cmd_result.out,
             "    rc: " ++ toString cmd_result.rc]
        | none => ["! error: " ++ host ++ ": " ++ m]
    | none => ["! host failed: " ++ host ++ ", "]
  (ctx.increment_failed_for_host host, lines)

/-- `PlaybookVisitor::on_host_connect_failed` (visitor.rs lines 260-264):
increments the failed counters and reports the distinct connection-failure
message. -/
def on_host_connect_failed (ctx : PlaybookContext) (host : String) :
    PlaybookContext × List String :=
  (ctx.increment_failed_for_host host, ["! connection failed to host: " ++ host])

/-- `PlaybookVisitor::get_exit_status` (visitor.rs lines 266-272): 0 when the
distinct-failed-hosts count is 0, 1 otherwise. -/
def get_exit_status (ctx : PlaybookContext) : Int :=
  match ctx.get_hosts_failed_count with
  | 0 => 0
  | _ => 1

/-- The data `show_playbook_summary` (visitor.rs lines 314-376) reads and
derives before rendering: every table figure plus the closing verdict line. -/
structure SummaryData where
  seen_hosts : Nat
  role_ct : Nat
  task_ct : Nat
  action_ct : Nat
  matched_ct : Nat
  matched_hosts : Nat
  created_ct : Nat
  created_hosts : Nat
  modified_ct : Nat
  modified_hosts : Nat
  removed_ct : Nat
  removed_hosts : Nat
  executed_ct : Nat
  executed_hosts : Nat
  passive_ct : Nat
  passive_hosts : Nat
  skipped_ct : Nat
  skipped_hosts : Nat
  adjusted_ct : Nat
  adjusted_hosts : Nat
  unchanged_ct : Nat
  unchanged_hosts : Nat
  failed_ct : Nat
  failed_hosts : Nat
  summary : String
deriving DecidableEq, Repr

/-- `show_playbook_summary` (visitor.rs lines 314-376): reads the final
aggregator snapshot, derives the unchanged counts by subtraction, and picks
the closing verdict by matching first on `failed_hosts` and then on
`adjusted_hosts`. -/
def show_playbook_summary (ctx : PlaybookContext) : SummaryData :=
  let seen_hosts := ctx.get_hosts_seen_count
  let adjusted_ct := ctx.get_total_adjusted_count
  let adjusted_hosts := ctx.get_hosts_adjusted_count
  let action_ct := ctx.get_total_attempted_count
  let failed_hosts := ctx.get_hosts_failed_count
  { seen_hosts := seen_hosts
    role_ct := ctx.get_role_count
    task_ct := ctx.get_task_count
    action_ct := action_ct
    matched_ct := ctx.get_total_matched_count
    matched_hosts := ctx.get_hosts_matched_count
    created_ct := ctx.get_total_creation_count
    created_hosts := ctx.get_hosts_creation_count
    modified_ct := ctx.get_total_modified_count
    modified_hosts := ctx.get_hosts_modified_count
    removed_ct := ctx.get_total_removal_count
    removed_hosts := ctx.get_hosts_removal_count
    executed_ct := ctx.get_total_executions_count
    executed_hosts := ctx.get_hosts_executions_count
    passive_ct := ctx.get_total_passive_count
    passive_hosts := ctx.get_hosts_passive_count
    skipped_ct := ctx.get_total_skipped_count
    skipped_hosts := ctx.get_hosts_skipped_count
    adjusted_ct := adjusted_ct
    adjusted_hosts := adjusted_hosts
    unchanged_ct := action_ct - adjusted_ct
    unchanged_hosts := seen_hosts - adjusted_hosts
    failed_ct := ctx.get_total_failed_count
    failed_hosts := failed_hosts
    summary :=
      match failed_hosts with
      | 0 =>
          match adjusted_hosts with
          | 0 => "(✓) Perfect. All hosts matched policy."
          | _ => "(✓) Actions were applied."
      | _ => "(X) Failures have occured." }

/-- One per-host outcome event delivered to the visitor by the traversal loop
(out of scope): a real-mode result, a check-mode result, a task failure, or a
connection failure. -/
inductive RunEvent where
  | taskOk (resp : TaskResponse) (host : String)
  | taskCheckOk (resp : TaskResponse) (host : String)
  | taskFailed (resp : TaskResponse) (host : String)
  | connectFailed (host : String)

/-- Modelled from the spec: the traversal loop (not under src/) marks the host
seen and dispatches the event to the matching visitor handler; a handler that
panics yields `none`. -/
def applyEvent (ctx : PlaybookContext) (e : RunEvent) : Option PlaybookContext :=
  match e with
  | RunEvent.taskOk resp host =>
      (on_host_task_ok (ctx.see_host host) resp host).map Prod.fst
  | RunEvent.taskCheckOk resp host =>
      (on_host_task_check_ok (ctx.see_host host) resp host).map Prod.fst
  | RunEvent.taskFailed resp host =>
      some (on_host_task_failed (ctx.see_host host) resp host).fst
  | RunEvent.connectFailed host =>
      some (on_host_connect_failed (ctx.see_host host) host).fst

/-- A whole run: the visitor handlers applied in sequence from a starting
aggregator state. -/
def runEvents (ctx : PlaybookContext) : List RunEvent → Option PlaybookContext
  | [] => some ctx
  | e :: es =>
      match applyEvent ctx e with
      | none => none
      | some ctx2 => runEvents ctx2 es

/-- Concrete command result used by concrete-input theorems. -/
def cr0 : CommandResult := { cmd := "/bin/true", out := "", rc := 0 }

/-- Concrete handle-style Failed response with neither diagnostic field. -/
def failedResp : TaskResponse :=
  { status := TaskStatus.Failed, changes := none, msg := none, command_result := none }

/-- Concrete Failed response carrying only a command result, as
`TaskHandle::command_failed` produces. -/
def cmdOnlyFailedResp : TaskResponse :=
  { status := TaskStatus.Failed, changes := none, msg := none,
    command_result := some { cmd := "/bin/x", out := "boom", rc := 1 } }

/-- The aggregator invariant maintained by every visitor event: each adjusting
category's distinct-host set stays inside the seen-hosts set, and the adjusted
total never exceeds the attempted total. -/
def ContextInv (ctx : PlaybookContext) : Prop :=
  ctx.created.hosts ⊆ ctx.seen_hosts ∧
  ctx.modified.hosts ⊆ ctx.seen_hosts ∧
  ctx.removed.hosts ⊆ ctx.seen_hosts ∧
  ctx.executed.hosts ⊆ ctx.seen_hosts ∧
  ctx.get_total_adjusted_count ≤ ctx.get_total_attempted_count

/-- Concrete one-event run: host a reports IsCreated in real mode. -/
def evs0 : List RunEvent :=
  [RunEvent.taskOk ⟨TaskStatus.IsCreated, none, none, none⟩ "a"]

/-- The aggregator state after `evs0`. -/
def ctx0 : PlaybookContext :=
  { seen_hosts := {"a"}
    attempted := ⟨1, {"a"}⟩, created := ⟨1, {"a"}⟩, removed := ⟨0, ∅⟩, modified := ⟨0, ∅⟩
    executed := ⟨0, ∅⟩, passive := ⟨0, ∅⟩, matched := ⟨0, ∅⟩, skipped := ⟨0, ∅⟩
    failed := ⟨0, ∅⟩, role_count := 0, task_count := 0 }

/-- C3: `get_exit_status` returns 0 exactly when the distinct-failed-hosts
count is 0, and 1 otherwise, whatever the other counters hold. -/
theorem get_exit_status_zero_iff_no_failed_hosts : ∀ ctx : PlaybookContext,
    (get_exit_status ctx = 0 ↔ ctx.get_hosts_failed_count = 0) ∧
    get_exit_status ctx = (if ctx.get_hosts_failed_count = 0 then (0 : Int) else 1) := by
  intro ctx
  cases h : ctx.get_hosts_failed_count <;> simp [get_exit_status, h]

/-- C8: `TaskHandle::run` fails its precondition (fatally) exactly on Validate
requests, and forwards the command to the connection for every other kind. -/
theorem run_rejects_validate_requests :
    ∀ (conn : TaskRequest → String → Except TaskResponse TaskResponse)
      (request : TaskRequest) (cmd : String),
    TaskHandle.run conn request cmd =
      (if request.request_type = TaskRequestType.Validate then none
       else some (conn request cmd)) ∧
    (TaskHandle.run conn request cmd = none ↔
      request.request_type = TaskRequestType.Validate) := by
  intro conn request cmd
  obtain ⟨t⟩ := request
  cases t <;> simp [TaskHandle.run]

/-- C9: the closing verdict of the summary is chosen by precedence: any failed
host gives the failure message, else any adjusted host gives the
actions-were-applied message, else the all-matched message. -/
theorem summary_verdict_precedence : ∀ ctx : PlaybookContext,
    (show_playbook_summary ctx).summary =
      (if ctx.get_hosts_failed_count ≠ 0 then "(X) Failures have occured."
       else if ctx.get_hosts_adjusted_count ≠ 0 then "(✓) Actions were applied."
       else "(✓) Perfect. All hosts matched policy.") := by
  intro ctx
  cases hf : ctx.get_hosts_failed_count <;>
    cases ha : ctx.get_hosts_adjusted_count <;>
      simp [show_playbook_summary, hf, ha]

/-- C10: `is_failed` always yields a Failed response with the message and no
command result; `command_failed` always yields a Failed response with the
command result and no message; neither ever carries both diagnostics. -/
theorem failed_responses_exclusive_diagnostics :
    ∀ (request : TaskRequest) (m : String) (cr : CommandResult),
    (TaskHandle.is_failed request m).status = TaskStatus.Failed ∧
    (TaskHandle.is_failed request m).msg = some m ∧
    (TaskHandle.is_failed request m).command_result = none ∧
    (TaskHandle.command_failed request cr).status = TaskStatus.Failed ∧
    (TaskHandle.command_failed request cr).msg = none ∧
    (TaskHandle.command_failed request cr).command_result = some cr ∧
    ((TaskHandle.is_failed request m).msg.isSome &&
      (TaskHandle.is_failed request m).command_result.isSome) = false ∧
    ((TaskHandle.command_failed request cr).msg.isSome &&
      (TaskHandle.command_failed request cr).command_result.isSome) = false := by
  intro request m cr
  exact ⟨rfl, rfl, rfl, rfl, rfl, rfl, rfl, rfl⟩

/-- C4: for each corresponding pair of statuses, the check-mode handler
performs exactly the same aggregator increments as the real-mode handler
does for the counterpart status, on any aggregator state. -/
theorem check_mode_counter_refinement :
    ∀ (ctx : PlaybookContext) (host : String) (ch : Option (List (String × String)))
      (m : Option String) (cr : Option CommandResult),
    ((on_host_task_check_ok ctx ⟨TaskStatus.NeedsCreation, ch, m, cr⟩ host).map Prod.fst =
      (on_host_task_ok ctx ⟨TaskStatus.IsCreated, ch, m, cr⟩ host).map Prod.fst) ∧
    ((on_host_task_check_ok ctx ⟨TaskStatus.NeedsRemoval, ch, m, cr⟩ host).map Prod.fst =
      (on_host_task_ok ctx ⟨TaskStatus.IsRemoved, ch, m, cr⟩ host).map Prod.fst) ∧
    ((on_host_task_check_ok ctx ⟨TaskStatus.NeedsModification, ch, m, cr⟩ host).map Prod.fst =
      (on_host_task_ok ctx ⟨TaskStatus.IsModified, ch, m, cr⟩ host).map Prod.fst) ∧
    ((on_host_task_check_ok ctx ⟨TaskStatus.NeedsExecution, ch, m, cr⟩ host).map Prod.fst =
      (on_host_task_ok ctx ⟨TaskStatus.IsExecuted, ch, m, cr⟩ host).map Prod.fst) ∧
    ((on_host_task_check_ok ctx ⟨TaskStatus.IsPassive, ch, m, cr⟩ host).map Prod.fst =
      (on_host_task_ok ctx ⟨TaskStatus.IsPassive, ch, m, cr⟩ host).map Prod.fst) ∧
    ((on_host_task_check_ok ctx ⟨TaskStatus.IsMatched, ch, m, cr⟩ host).map Prod.fst =
      (on_host_task_ok ctx ⟨TaskStatus.IsMatched, ch, m, cr⟩ host).map Prod.fst) ∧
    ((on_host_task_check_ok ctx ⟨TaskStatus.IsSkipped, ch, m, cr⟩ host).map Prod.fst =
      (on_host_task_ok ctx ⟨TaskStatus.IsSkipped, ch, m, cr⟩ host).map Prod.fst) ∧
    ((on_host_task_check_ok ctx ⟨TaskStatus.Failed, ch, m, cr⟩ host).map Prod.fst =
      (on_host_task_ok ctx ⟨TaskStatus.Failed, ch, m, cr⟩ host).map Prod.fst) := by
  intro ctx host ch m cr
  exact ⟨rfl, rfl, rfl, rfl, rfl, rfl, rfl, rfl⟩

/-- C7: a connection failure updates the aggregator exactly as a task failure
does — it equals `increment_failed_for_host`, leaves attempted and every
non-failed counter alone — while its printed message is the distinct
connection-failure line. -/
theorem on_host_connect_failed_effect :
    ∀ (ctx : PlaybookContext) (resp : TaskResponse) (host : String),
    (on_host_connect_failed ctx host).fst = (on_host_task_failed ctx resp host).fst ∧
    (on_host_connect_failed ctx host).fst = ctx.increment_failed_for_host host ∧
    (on_host_connect_failed ctx host).fst.attempted = ctx.attempted ∧
    (on_host_connect_failed ctx host).fst.created = ctx.created ∧
    (on_host_connect_failed ctx host).fst.removed = ctx.removed ∧
    (on_host_connect_failed ctx host).fst.modified = ctx.modified ∧
    (on_host_connect_failed ctx host).fst.executed = ctx.executed ∧
    (on_host_connect_failed ctx host).fst.passive = ctx.passive ∧
    (on_host_connect_failed ctx host).fst.matched = ctx.matched ∧
    (on_host_connect_failed ctx host).fst.skipped = ctx.skipped ∧
    (on_host_connect_failed ctx host).fst.seen_hosts = ctx.seen_hosts ∧
    (on_host_connect_failed ctx host).fst.failed.total = ctx.failed.total + 1 ∧
    (on_host_connect_failed ctx host).snd = ["! connection failed to host: " ++ host] := by
  intro ctx resp host
  exact ⟨rfl, rfl, rfl, rfl, rfl, rfl, rfl, rfl, rfl, rfl, rfl, rfl, rfl⟩

/-- C1 counterexample: `command_ok` does not reject a Query request — it
performs no precondition check and constructs a response whose status
`IsCreated` is outside the legal set for Query. -/
theorem command_ok_accepts_illegal_kind :
    (TaskHandle.command_ok ⟨TaskRequestType.Query⟩ cr0).status = TaskStatus.IsCreated ∧
    legalStatus TaskRequestType.Query
      (TaskHandle.command_ok ⟨TaskRequestType.Query⟩ cr0).status = false :=
  ⟨rfl, rfl⟩

/-- C1 amended: the seven kind-specific constructors (`is_validated`,
`is_created`, `is_removed`, `is_modified`, `needs_creation`,
`needs_modification`, `needs_removal`) reject (fatal assert) every request
kind outside their pairing and so only construct protocol-legal responses;
`is_failed` and `command_failed` perform no check but always produce `Failed`,
legal for every kind; `command_ok` performs no check and always produces
`IsCreated` whatever the request kind. -/
theorem constructors_enforce_legal_status :
    ∀ (request : TaskRequest) (m : String) (cr : CommandResult)
      (ch : Option (List (String × String))),
    constructedLegal request (TaskHandle.is_validated request) = true ∧
    ((TaskHandle.is_validated request).isSome = true ↔
      request.request_type = TaskRequestType.Validate) ∧
    constructedLegal request (TaskHandle.is_created request) = true ∧
    ((TaskHandle.is_created request).isSome = true ↔
      request.request_type = TaskRequestType.Create) ∧
    constructedLegal request (TaskHandle.is_removed request) = true ∧
    ((TaskHandle.is_removed request).isSome = true ↔
      request.request_type = TaskRequestType.Remove) ∧
    constructedLegal request (TaskHandle.is_modified request ch) = true ∧
    ((TaskHandle.is_modified request ch).isSome = true ↔
      request.request_type = TaskRequestType.Modify) ∧
    constructedLegal request (TaskHandle.needs_creation request) = true ∧
    ((TaskHandle.needs_creation request).isSome = true ↔
      request.request_type = TaskRequestType.Query) ∧
    constructedLegal request (TaskHandle.needs_modification request ch) = true ∧
    ((TaskHandle.needs_modification request ch).isSome = true ↔
      request.request_type = TaskRequestType.Query) ∧
    constructedLegal request (TaskHandle.needs_removal request) = true ∧
    ((TaskHandle.needs_removal request).isSome = true ↔
      request.request_type = TaskRequestType.Query) ∧
    legalStatus request.request_type (TaskHandle.is_failed request m).status = true ∧
    legalStatus request.request_type (TaskHandle.command_failed request cr).status = true ∧
    (TaskHandle.command_ok request cr).status = TaskStatus.IsCreated := by
  intro request m cr ch
  obtain ⟨t⟩ := request
  cases t <;>
    simp [constructedLegal, legalStatus, TaskHandle.is_validated, TaskHandle.is_created,
      TaskHandle.is_removed, TaskHandle.is_modified, TaskHandle.needs_creation,
      TaskHandle.needs_modification, TaskHandle.needs_removal, TaskHandle.is_failed,
      TaskHandle.command_failed, TaskHandle.command_ok]

/-- C2 counterexample: a `Failed` response handled by the real-mode
`on_host_task_ok` is not counted toward the failed bucket — only attempted is
incremented. -/
theorem on_host_task_ok_failed_uncounted :
    ((on_host_task_ok initialContext failedResp "h").map
      (fun p => p.fst.get_total_failed_count)) = some 0 ∧
    ((on_host_task_ok initialContext failedResp "h").map
      (fun p => p.fst.get_total_attempted_count)) = some 1 :=
  ⟨rfl, rfl⟩

/-- C2 amended: `on_host_task_ok` increments attempted and then exactly the
bucket of the outcome table for the seven adjusting or matching statuses; a
`Failed` response increments only attempted (its failed bucket is untouched —
failure counting happens in `on_host_task_failed`); every other status hits
the fatal fallback arm. -/
theorem on_host_task_ok_counter_table :
    ∀ (ctx : PlaybookContext) (host : String) (ch : Option (List (String × String)))
      (m : Option String) (cr : Option CommandResult),
    ((on_host_task_ok ctx ⟨TaskStatus.IsCreated, ch, m, cr⟩ host).map Prod.fst =
      some ((ctx.increment_attempted_for_host host).increment_created_for_host host)) ∧
    ((on_host_task_ok ctx ⟨TaskStatus.IsRemoved, ch, m, cr⟩ host).map Prod.fst =
      some ((ctx.increment_attempted_for_host host).increment_removed_for_host host)) ∧
    ((on_host_task_ok ctx ⟨TaskStatus.IsModified, ch, m, cr⟩ host).map Prod.fst =
      some ((ctx.increment_attempted_for_host host).increment_modified_for_host host)) ∧
    ((on_host_task_ok ctx ⟨TaskStatus.IsExecuted, ch, m, cr⟩ host).map Prod.fst =
      some ((ctx.increment_attempted_for_host host).increment_executed_for_host host)) ∧
    ((on_host_task_ok ctx ⟨TaskStatus.IsPassive, ch, m, cr⟩ host).map Prod.fst =
      some ((ctx.increment_attempted_for_host host).increment_passive_for_host host)) ∧
    ((on_host_task_ok ctx ⟨TaskStatus.IsMatched, ch, m, cr⟩ host).map Prod.fst =
      some ((ctx.increment_attempted_for_host host).increment_matched_for_host host)) ∧
    ((on_host_task_ok ctx ⟨TaskStatus.IsSkipped, ch, m, cr⟩ host).map Prod.fst =
      some ((ctx.increment_attempted_for_host host).increment_skipped_for_host host)) ∧
    ((on_host_task_ok ctx ⟨TaskStatus.Failed, ch, m, cr⟩ host).map Prod.fst =
      some (ctx.increment_attempted_for_host host)) ∧
    ((on_host_task_ok ctx ⟨TaskStatus.Failed, ch, m, cr⟩ host).map
      (fun p => p.fst.failed) = some ctx.failed) ∧
    ((on_host_task_ok ctx ⟨TaskStatus.IsValidated, ch, m, cr⟩ host) = none) ∧
    ((on_host_task_ok ctx ⟨TaskStatus.NeedsCreation, ch, m, cr⟩ host) = none) ∧
    ((on_host_task_ok ctx ⟨TaskStatus.NeedsRemoval, ch, m, cr⟩ host) = none) ∧
    ((on_host_task_ok ctx ⟨TaskStatus.NeedsModification, ch, m, cr⟩ host) = none) ∧
    ((on_host_task_ok ctx ⟨TaskStatus.NeedsExecution, ch, m, cr⟩ host) = none) := by
  intro ctx host ch m cr
  exact ⟨rfl, rfl, rfl, rfl, rfl, rfl, rfl, rfl, rfl, rfl, rfl, rfl, rfl, rfl⟩

/-- C6 counterexample: a Failed response with a command result but no message
(exactly what `command_failed` constructs) is reported with only the generic
host-failed line — the cmd/out/rc triple is not printed even though a command
result is present. -/
theorem on_host_task_failed_drops_command_result :
    cmdOnlyFailedResp.command_result.isSome = true ∧
    (on_host_task_failed initialContext cmdOnlyFailedResp "h").snd =
      ["! host failed: h, "] ∧
    ¬ ("    cmd: /bin/x" ∈ (on_host_task_failed initialContext cmdOnlyFailedResp "h").snd) :=
  ⟨rfl, rfl, by decide⟩

/-- C6 amended: `on_host_task_failed` always increments the failed counters
and always prints (never a silent drop, never an abort); when the message is
present without a command result the message is printed; the cmd/out/rc
triple is printed only when both the message and the command result are
present (and then the message itself is not shown); when the message is
absent only the generic host-failed line appears, even if a command result is
present. -/
theorem on_host_task_failed_characterization :
    ∀ (ctx : PlaybookContext) (resp : TaskResponse) (host : String),
    (on_host_task_failed ctx resp host).fst = ctx.increment_failed_for_host host ∧
    (on_host_task_failed ctx resp host).snd ≠ [] ∧
    (∀ m cmd_result, resp.msg = some m → resp.command_result = some cmd_result →
      (on_host_task_failed ctx resp host).snd =
        ["! " ++ host ++ " => failed",
         "    cmd: " ++ cmd_result.cmd,
         "    out: " ++ cmd_result.out,
         "    rc: " ++ toString cmd_result.rc]) ∧
    (∀ m, resp.msg = some m → resp.command_result = none →
      (on_host_task_failed ctx resp host).snd = ["! error: " ++ host ++ ": " ++ m]) ∧
    (resp.msg = none →
      (on_host_task_failed ctx resp host).snd = ["! host failed: " ++ host ++ ", "]) := by
  intro ctx resp host
  obtain ⟨s, ch, msg, cr⟩ := resp
  refine ⟨rfl, ?_, ?_, ?_, ?_⟩
  · cases msg <;> cases cr <;> simp [on_host_task_failed]
  · intro m cmd_result hm hcr
    cases hm
    cases hcr
    rfl
  · intro m hm hcr
    cases hm
    cases hcr
    rfl
  · intro hm
    cases hm
    cases cr <;> rfl

/-- C6 witness: the characterization applied to a concrete message-only
failure on host h. -/
theorem on_host_task_failed_characterization_witness :
    (on_host_task_failed initialContext
        (TaskHandle.is_failed ⟨TaskRequestType.Query⟩ "m") "h").fst =
      initialContext.increment_failed_for_host "h" ∧
    (on_host_task_failed initialContext
        (TaskHandle.is_failed ⟨TaskRequestType.Query⟩ "m") "h").snd =
      ["! error: " ++ "h" ++ ": " ++ "m"] :=
  ⟨(on_host_task_failed_characterization initialContext
      (TaskHandle.is_failed ⟨TaskRequestType.Query⟩ "m") "h").1,
   (on_host_task_failed_characterization initialContext
      (TaskHandle.is_failed ⟨TaskRequestType.Query⟩ "m") "h").2.2.2.1 "m" rfl rfl⟩

/-- The initial aggregator satisfies the invariant. -/
theorem contextInv_initial : ContextInv initialContext := by
  refine ⟨?_, ?_, ?_, ?_, ?_⟩ <;>
    simp [ContextInv, initialContext, PlaybookContext.get_total_adjusted_count,
      PlaybookContext.get_total_attempted_count]

/-- Marking a host seen preserves the invariant. -/
theorem contextInv_see_host (ctx : PlaybookContext) (host : String) :
    ContextInv ctx → ContextInv (ctx.see_host host) := by
  rintro ⟨h1, h2, h3, h4, h5⟩
  exact ⟨h1.trans (Finset.subset_insert _ _), h2.trans (Finset.subset_insert _ _),
    h3.trans (Finset.subset_insert _ _), h4.trans (Finset.subset_insert _ _), h5⟩

/-- The real-mode handler preserves the invariant when the host is already
seen. -/
theorem on_host_task_ok_inv (ctx : PlaybookContext) (resp : TaskResponse) (host : String)
    (p : PlaybookContext × List String) (hinv : ContextInv ctx)
    (hmem : host ∈ ctx.seen_hosts) (happ : on_host_task_ok ctx resp host = some p) :
    ContextInv p.fst := by
  obtain ⟨h1, h2, h3, h4, h5⟩ := hinv
  simp only [PlaybookContext.get_total_adjusted_count,
    PlaybookContext.get_total_attempted_count] at h5
  cases hs : resp.status <;>
    simp only [on_host_task_ok, hs, Option.some.injEq] at happ
  all_goals try exact Option.noConfusion happ
  all_goals subst happ
  all_goals
    refine ⟨?_, ?_, ?_, ?_, ?_⟩ <;>
      simp only [ContextInv, PlaybookContext.increment_attempted_for_host,
        PlaybookContext.increment_created_for_host,
        PlaybookContext.increment_removed_for_host,
        PlaybookContext.increment_modified_for_host,
        PlaybookContext.increment_executed_for_host,
        PlaybookContext.increment_passive_for_host,
        PlaybookContext.increment_matched_for_host,
        PlaybookContext.increment_skipped_for_host,
        PlaybookContext.get_total_adjusted_count,
        PlaybookContext.get_total_attempted_count, Bucket.incr] <;>
      first
        | exact h1
        | exact h2
        | exact h3
        | exact h4
        | exact Finset.insert_subset_iff.mpr ⟨hmem, by assumption⟩
        | omega

/-- The check-mode handler preserves the invariant when the host is already
seen. -/
theorem on_host_task_check_ok_inv (ctx : PlaybookContext) (resp : TaskResponse) (host : String)
    (p : PlaybookContext × List String) (hinv : ContextInv ctx)
    (hmem : host ∈ ctx.seen_hosts) (happ : on_host_task_check_ok ctx resp host = some p) :
    ContextInv p.fst := by
  obtain ⟨h1, h2, h3, h4, h5⟩ := hinv
  simp only [PlaybookContext.get_total_adjusted_count,
    PlaybookContext.get_total_attempted_count] at h5
  cases hs : resp.status <;>
    simp only [on_host_task_check_ok, hs, Option.some.injEq] at happ
  all_goals try exact Option.noConfusion happ
  all_goals subst happ
  all_goals
    refine ⟨?_, ?_, ?_, ?_, ?_⟩ <;>
      simp only [ContextInv, PlaybookContext.increment_attempted_for_host,
        PlaybookContext.increment_created_for_host,
        PlaybookContext.increment_removed_for_host,
        PlaybookContext.increment_modified_for_host,
        PlaybookContext.increment_executed_for_host,
        PlaybookContext.increment_passive_for_host,
        PlaybookContext.increment_matched_for_host,
        PlaybookContext.increment_skipped_for_host,
        PlaybookContext.get_total_adjusted_count,
        PlaybookContext.get_total_attempted_count, Bucket.incr] <;>
      first
        | exact h1
        | exact h2
        | exact h3
        | exact h4
        | exact Finset.insert_subset_iff.mpr ⟨hmem, by assumption⟩
        | omega

/-- Incrementing the failed counters preserves the invariant. -/
theorem increment_failed_inv (ctx : PlaybookContext) (host : String) :
    ContextInv ctx → ContextInv (ctx.increment_failed_for_host host) := by
  rintro ⟨h1, h2, h3, h4, h5⟩
  exact ⟨h1, h2, h3, h4, h5⟩

/-- Every traversal event preserves the invariant. -/
theorem applyEvent_inv (ctx : PlaybookContext) (e : RunEvent) (ctx2 : PlaybookContext)
    (hinv : ContextInv ctx) (happ : applyEvent ctx e = some ctx2) : ContextInv ctx2 := by
  cases e with
  | taskOk resp host =>
      simp only [applyEvent, Option.map_eq_some'] at happ
      obtain ⟨p, hp, rfl⟩ := happ
      exact on_host_task_ok_inv _ resp host p (contextInv_see_host ctx host hinv)
        (Finset.mem_insert_self host ctx.seen_hosts) hp
  | taskCheckOk resp host =>
      simp only [applyEvent, Option.map_eq_some'] at happ
      obtain ⟨p, hp, rfl⟩ := happ
      exact on_host_task_check_ok_inv _ resp host p (contextInv_see_host ctx host hinv)
        (Finset.mem_insert_self host ctx.seen_hosts) hp
  | taskFailed resp host =>
      simp only [applyEvent, Option.some.injEq] at happ
      subst happ
      exact increment_failed_inv _ host (contextInv_see_host ctx host hinv)
  | connectFailed host =>
      simp only [applyEvent, Option.some.injEq] at happ
      subst happ
      exact increment_failed_inv _ host (contextInv_see_host ctx host hinv)

/-- A whole run of events preserves the invariant. -/
theorem runEvents_inv : ∀ (evs : List RunEvent) (ctx ctx2 : PlaybookContext),
    ContextInv ctx → runEvents ctx evs = some ctx2 → ContextInv ctx2 := by
  intro evs
  induction evs with
  | nil =>
      intro ctx ctx2 hinv hrun
      simp only [runEvents, Option.some.injEq] at hrun
      subst hrun
      exact hinv
  | cons e es ih =>
      intro ctx ctx2 hinv hrun
      simp only [runEvents] at hrun
      cases happ : applyEvent ctx e with
      | none => rw [happ] at hrun; exact Option.noConfusion hrun
      | some ctx1 =>
          rw [happ] at hrun
          exact ih ctx1 ctx2 (applyEvent_inv ctx e ctx1 hinv happ) hrun

/-- C5: for every sequence of responses recorded through the visitor's
handlers, the summary renderer's derived unchanged counts are well defined
and never negative: the adjusted total never exceeds the attempted total,
the adjusted-hosts count never exceeds the seen-hosts count, and the
subtractions are exact. -/
theorem summary_unchanged_counts_well_defined :
    ∀ (evs : List RunEvent) (ctx : PlaybookContext),
    runEvents initialContext evs = some ctx →
    (show_playbook_summary ctx).adjusted_ct ≤ (show_playbook_summary ctx).action_ct ∧
    (show_playbook_summary ctx).adjusted_hosts ≤ (show_playbook_summary ctx).seen_hosts ∧
    (show_playbook_summary ctx).unchanged_ct + (show_playbook_summary ctx).adjusted_ct =
      (show_playbook_summary ctx).action_ct ∧
    (show_playbook_summary ctx).unchanged_hosts + (show_playbook_summary ctx).adjusted_hosts =
      (show_playbook_summary ctx).seen_hosts := by
  intro evs ctx hrun
  obtain ⟨h1, h2, h3, h4, h5⟩ := runEvents_inv evs initialContext ctx contextInv_initial hrun
  have hhosts : ctx.get_hosts_adjusted_count ≤ ctx.get_hosts_seen_count := by
    apply Finset.card_le_card
    exact Finset.union_subset (Finset.union_subset (Finset.union_subset h1 h2) h3) h4
  have hct : (show_playbook_summary ctx).adjusted_ct ≤ (show_playbook_summary ctx).action_ct := h5
  have hh : (show_playbook_summary ctx).adjusted_hosts ≤ (show_playbook_summary ctx).seen_hosts :=
    hhosts
  exact ⟨hct, hh, Nat.sub_add_cancel hct, Nat.sub_add_cancel hh⟩

/-- C5 witness: the well-definedness facts at the concrete one-event run
`evs0`, whose final aggregator state is `ctx0`. -/
theorem summary_unchanged_counts_well_defined_witness :
    runEvents initialContext evs0 = some ctx0 ∧
    ((show_playbook_summary ctx0).adjusted_ct ≤ (show_playbook_summary ctx0).action_ct ∧
     (show_playbook_summary ctx0).adjusted_hosts ≤ (show_playbook_summary ctx0).seen_hosts ∧
     (show_playbook_summary ctx0).unchanged_ct + (show_playbook_summary ctx0).adjusted_ct =
       (show_playbook_summary ctx0).action_ct ∧
     (show_playbook_summary ctx0).unchanged_hosts + (show_playbook_summary ctx0).adjusted_hosts =
       (show_playbook_summary ctx0).seen_hosts) :=
  ⟨rfl, summary_unchanged_counts_well_defined evs0 ctx0 rfl⟩
